import Mathlib

/-!
Shallow embedding of the Dyson Pure Cool protocol client (`src/dyson.py`,
class `DysonPureCool`) and verification of its specification.

Modelling conventions:
* Python exceptions are modelled with `Except PyError`.
* The state snapshot `self._state_data` and the environment snapshot
  `self._environmental_data` start as `None`; they are modelled as
  `Option` association lists.  Device firmware reports a state field either
  as a scalar string or as a two-element `[previous, current]` list of
  strings, modelled by `FieldValue`.
* The impure timestamp `mqtt_time()` is passed in as an explicit `t : String`.
* Publishing a STATE-SET message is modelled by returning the message; a
  raised exception publishes nothing (`publishedBy`).
-/

namespace DysonPureCool

/-- Python exceptions raised by the code paths we model. -/
inductive PyError where
  | typeError (msg : String)
  | valueError (msg : String)
  | keyError (key : String)
  | jsonDecodeError (msg : String)
deriving DecidableEq

/-- A raw state-field value as the device reports it: a scalar string, or a
two-element `[previous, current]` list of strings. -/
inductive FieldValue where
  | scalar (s : String)
  | pair (previous current : String)
deriving DecidableEq

/-- The two snapshots held by the client (`self._state_data` and
`self._environmental_data`), each `None` until first data arrives. -/
structure DeviceState where
  stateData : Option (List (String × FieldValue))
  environmentalData : Option (List (String × String))
deriving DecidableEq

/-- The snapshots right after `__init__`: both `None`. -/
def initialDevice : DeviceState :=
  { stateData := none, environmentalData := none }

/-- Message raised by Python when testing `field in None`. -/
def noneNotIterable : String := "argument of type NoneType is not iterable"

/-- Value of a decimal digit character. -/
def digitVal (c : Char) : Option Nat :=
  if c.isDigit then some (c.toNat - 48) else none

/-- Value of a nonempty digit string, most significant digit first;
`none` if any character is not a digit. -/
def digitsVal (cs : List Char) : Option Nat :=
  cs.foldl
    (fun acc c =>
      match acc, digitVal c with
      | some a, some d => some (a * 10 + d)
      | _, _ => none)
    (some 0)

/-- Python `int(s)` on a string, modelled for an optional minus sign followed
by decimal digits (the only shapes the device protocol produces);
`none` means `ValueError`. -/
def parsePyInt (s : String) : Option Int :=
  match s.toList with
  | [] => none
  | List.cons c cs =>
    if c = '-' then
      if cs = [] then none else (digitsVal cs).map (fun n => -(n : Int))
    else
      (digitsVal (List.cons c cs)).map (fun n => (n : Int))

/-- Python `int(v)` on a field-resolution result: `int(None)` raises
`TypeError`, a non-numeric string raises `ValueError`. -/
def pyInt (v : Option String) : Except PyError Int :=
  match v with
  | none => Except.error (PyError.typeError "int() argument must be a string, not NoneType")
  | some s =>
    match parsePyInt s with
    | some n => Except.ok n
    | none => Except.error (PyError.valueError "invalid literal for int() with base 10")

/-- Python `float(s)` on an unsigned decimal literal `digits[.digits]`,
as exact rational arithmetic. -/
def parseUnsignedFloat (cs : List Char) : Option ℚ :=
  match cs.span (fun c => c ≠ '.') with
  | (intPart, []) =>
    if intPart = [] then none else (digitsVal intPart).map (fun n => (n : ℚ))
  | (intPart, List.cons _dot fracPart) =>
    if intPart = [] ∧ fracPart = [] then none
    else
      match digitsVal intPart, digitsVal fracPart with
      | some i, some f => some ((i : ℚ) + (f : ℚ) / ((10 : ℚ) ^ fracPart.length))
      | _, _ => none

/-- Python `float(s)` with an optional minus sign. -/
def parsePyFloat (s : String) : Option ℚ :=
  match s.toList with
  | [] => none
  | List.cons c cs =>
    if c = '-' then (parseUnsignedFloat cs).map (fun q => -q)
    else parseUnsignedFloat (List.cons c cs)

/-- Python `float(v)` on a field-resolution result: `float(None)` raises
`TypeError`, a non-numeric string raises `ValueError`. -/
def pyFloat (v : Option String) : Except PyError ℚ :=
  match v with
  | none => Except.error (PyError.typeError "float() argument must be a string, not NoneType")
  | some s =>
    match parsePyFloat s with
    | some q => Except.ok q
    | none => Except.error (PyError.valueError "could not convert string to float")

/-- `DysonPureCool._get_field_value` (src/dyson.py lines 181-192): check the
state snapshot first (second element of a pair, otherwise the scalar); only
when the field is absent there, check the environment snapshot; absent from
both resolves to `None` (no value).  Membership tests against a snapshot that
is still `None` raise `TypeError`, exactly as `field in None` does. -/
def getFieldValue (st : DeviceState) (field : String) : Except PyError (Option String) :=
  match st.stateData with
  | none => Except.error (PyError.typeError noneNotIterable)
  | some sd =>
    match sd.lookup field with
    | some (FieldValue.pair _ cur) => Except.ok (some cur)
    | some (FieldValue.scalar v) => Except.ok (some v)
    | none =>
      match st.environmentalData with
      | none => Except.error (PyError.typeError noneNotIterable)
      | some ed =>
        match ed.lookup field with
        | some v => Except.ok (some v)
        | none => Except.ok none

def DYSON_CURRENT_STATE : String := "CURRENT-STATE"

def DYSON_STATE_CHANGE : String := "STATE-CHANGE"

def DYSON_ENVIRONMENTAL_CURRENT_SENSOR_DATA : String := "ENVIRONMENTAL-CURRENT-SENSOR-DATA"

def DYSON_AUTO_MODE : String := "Auto mode"

def DYSON_NIGHT_MODE : String := "Night mode"

def DYSON_AUTO_NIGHT_MODE : String := "Auto + Night mode"

/-- `DysonPureCool.is_on`: `fpwr == "ON"`. -/
def is_on (st : DeviceState) : Except PyError Bool :=
  match getFieldValue st "fpwr" with
  | Except.error e => Except.error e
  | Except.ok v => Except.ok (v == some "ON")

/-- `DysonPureCool.speed`: `"AUTO"` means no value (`None`), anything else is
parsed with `int`. -/
def speed (st : DeviceState) : Except PyError (Option Int) :=
  match getFieldValue st "fnsp" with
  | Except.error e => Except.error e
  | Except.ok fnsp =>
    if fnsp = some "AUTO" then Except.ok none
    else
      match pyInt fnsp with
      | Except.error e => Except.error e
      | Except.ok n => Except.ok (some n)

/-- `DysonPureCool.oscillating`: `oson in ["OION", "ON"]`. -/
def oscillating (st : DeviceState) : Except PyError Bool :=
  match getFieldValue st "oson" with
  | Except.error e => Except.error e
  | Except.ok v => Except.ok (v == some "OION" || v == some "ON")

/-- `DysonPureCool.oscillate_lower`: `int(osal)`. -/
def oscillate_lower (st : DeviceState) : Except PyError Int :=
  match getFieldValue st "osal" with
  | Except.error e => Except.error e
  | Except.ok v => pyInt v

/-- `DysonPureCool.oscillate_upper`: `int(osau)`. -/
def oscillate_upper (st : DeviceState) : Except PyError Int :=
  match getFieldValue st "osau" with
  | Except.error e => Except.error e
  | Except.ok v => pyInt v

/-- `DysonPureCool.preset_mode`: derived from the `auto` and `nmod` fields. -/
def preset_mode (st : DeviceState) : Except PyError (Option String) :=
  match getFieldValue st "auto" with
  | Except.error e => Except.error e
  | Except.ok auto =>
    match getFieldValue st "nmod" with
    | Except.error e => Except.error e
    | Except.ok nmod =>
      if auto = some "ON" ∧ nmod = some "ON" then Except.ok (some DYSON_AUTO_NIGHT_MODE)
      else if auto = some "ON" then Except.ok (some DYSON_AUTO_MODE)
      else if nmod = some "ON" then Except.ok (some DYSON_NIGHT_MODE)
      else Except.ok none

/-- Python `round(q)` to an integer, ties to even. -/
def roundHalfEven (q : ℚ) : Int :=
  if q - Rat.floor q < 1 / 2 then Rat.floor q
  else if q - Rat.floor q > 1 / 2 then Rat.floor q + 1
  else if Rat.floor q % 2 = 0 then Rat.floor q else Rat.floor q + 1

/-- `DysonPureCool.temperature`: `round(float(tact) / 10 - 273.15, 1)`,
modelled with exact rational arithmetic in place of binary floats. -/
def temperature (st : DeviceState) : Except PyError ℚ :=
  match getFieldValue st "tact" with
  | Except.error e => Except.error e
  | Except.ok tact =>
    match pyFloat tact with
    | Except.error e => Except.error e
    | Except.ok v =>
      Except.ok ((roundHalfEven ((v / 10 - 27315 / 100) * 10) : ℚ) / 10)

/-- `DysonPureCool.pm25`: `int(pm25)`, where only `ValueError` is caught and
turned into no value; `TypeError` (field unresolved) propagates. -/
def pm25 (st : DeviceState) : Except PyError (Option Int) :=
  match getFieldValue st "pm25" with
  | Except.error e => Except.error e
  | Except.ok v =>
    match pyInt v with
    | Except.ok n => Except.ok (some n)
    | Except.error (PyError.valueError _) => Except.ok none
    | Except.error e => Except.error e

/-- `DysonPureCool.sleep_timer`: `0 if sltm == "OFF" else int(sltm)`. -/
def sleep_timer (st : DeviceState) : Except PyError Int :=
  match getFieldValue st "sltm" with
  | Except.error e => Except.error e
  | Except.ok sltm =>
    if sltm = some "OFF" then Except.ok 0 else pyInt sltm

/-- `DysonPureCool.continuous_monitoring`: `rhtm == "ON"`. -/
def continuous_monitoring (st : DeviceState) : Except PyError Bool :=
  match getFieldValue st "rhtm" with
  | Except.error e => Except.error e
  | Except.ok v => Except.ok (v == some "ON")

/-- Left-pad a string with `'0'` up to width `w` (no truncation). -/
def padZeros (w : Nat) (s : String) : String :=
  if s.length < w then String.mk (List.replicate (w - s.length) '0') ++ s else s

/-- Python format `f"{n:04d}"`: total width 4, zero padding after the sign. -/
def pad04 (n : Int) : String :=
  if n < 0 then "-" ++ padZeros 3 (Nat.repr n.natAbs) else padZeros 4 (Nat.repr n.natAbs)

/-- An outbound STATE-SET message as built by
`DysonPureCool._set_configuration` (src/dyson.py lines 167-178); the data
mapping keeps the keyword-argument order of the caller. -/
structure StateSetMsg where
  msg : String
  time : String
  modeReason : String
  data : List (String × String)
deriving DecidableEq

/-- `DysonPureCool._set_configuration`: wrap a field mapping in the STATE-SET
envelope (the impure timestamp is passed in as `t`). -/
def setConfiguration (t : String) (kwargs : List (String × String)) : StateSetMsg :=
  { msg := "STATE-SET", time := t, modeReason := "LAPP", data := kwargs }

/-- Messages published by a command method: one on success, none when the
method raises. -/
def publishedBy (r : Except PyError StateSetMsg) : List StateSetMsg :=
  match r with
  | Except.ok m => [m]
  | Except.error _ => []

/-- `DysonPureCool.set_speed` (src/dyson.py lines 438-442): `ValueError` when
the speed is not in `range(1, 11)`, otherwise one STATE-SET with power on and
the zero-padded speed. -/
def set_speed (t : String) (sp : Int) : Except PyError StateSetMsg :=
  if ¬ (1 ≤ sp ∧ sp ≤ 10) then
    Except.error (PyError.valueError "Invalid airflow speed")
  else
    Except.ok (setConfiguration t [("fpwr", "ON"), ("fnsp", pad04 sp)])

/-- `DysonPureCool.turn_off`. -/
def turn_off (t : String) : Except PyError StateSetMsg :=
  Except.ok (setConfiguration t [("fpwr", "OFF")])

/-- `DysonPureCool.turn_on` (src/dyson.py lines 428-430): formats
`f"{self.speed:04d}"`; when `speed` is `None` (the `fnsp` field resolved to
`"AUTO"`) the format specifier raises `TypeError` and nothing is published. -/
def turn_on (st : DeviceState) (t : String) : Except PyError StateSetMsg :=
  match speed st with
  | Except.error e => Except.error e
  | Except.ok none =>
    Except.error (PyError.typeError "unsupported format string passed to NoneType.__format__")
  | Except.ok (some n) =>
    Except.ok (setConfiguration t [("fpwr", "ON"), ("fnsp", pad04 n)])

/-- Swap of the oscillation bounds when given in descending order
(src/dyson.py lines 454-455). -/
def swapIfDesc (l u : Int) : Int × Int :=
  if l > u then (u, l) else (l, u)

/-- Clamping of the oscillation bounds (src/dyson.py lines 457-458):
`osal = max(osal, 5)`, `osau = min(osau, 355)`. -/
def clampBounds (p : Int × Int) : Int × Int :=
  (max p.1 5, min p.2 355)

/-- Collapse of a narrow oscillation arc (src/dyson.py lines 460-461):
when `abs(osal - osau) < 30`, both bounds become
`int(osal + abs(osal - osau) / 2)`.  After clamping, `osal ≥ 5` and in this
branch `abs(osal - osau) < 30`, so the Python float arithmetic is exact and
`int` truncation equals `osal + abs(osal - osau) / 2` with Nat division. -/
def collapseNarrow (p : Int × Int) : Int × Int :=
  if (p.1 - p.2).natAbs < 30 then
    (p.1 + (((p.1 - p.2).natAbs / 2 : Nat) : Int),
     p.1 + (((p.1 - p.2).natAbs / 2 : Nat) : Int))
  else p

/-- The bound computation of `DysonPureCool.oscillate` (src/dyson.py lines
454-461): swap if descending, clamp, collapse a narrow arc. -/
def oscillateBounds (osal osau : Int) : Int × Int :=
  collapseNarrow (clampBounds (swapIfDesc osal osau))

/-- `DysonPureCool.oscillate` (src/dyson.py lines 445-468).  When enabling:
missing bounds default to the stored bounds, then the bound computation
`oscillateBounds` runs, the `oson` variant (IO or plain) is preserved from the
current `oson` field, and one STATE-SET with keys
`oson, fpwr, ancp, osal, osau` is sent with `ancp="CUST"` and power forced on.
When disabling: one STATE-SET with the single key `oson`. -/
def oscillate (st : DeviceState) (t : String) (osc : Bool) (osal osau : Option Int) :
    Except PyError StateSetMsg :=
  if osc then
    match (match osal with | some v => Except.ok v | none => oscillate_lower st) with
    | Except.error e => Except.error e
    | Except.ok l0 =>
      match (match osau with | some v => Except.ok v | none => oscillate_upper st) with
      | Except.error e => Except.error e
      | Except.ok u0 =>
        match getFieldValue st "oson" with
        | Except.error e => Except.error e
        | Except.ok cur =>
          Except.ok (setConfiguration t
            [("oson", if cur = some "OION" ∨ cur = some "OIOF" then "OION" else "ON"),
             ("fpwr", "ON"),
             ("ancp", "CUST"),
             ("osal", pad04 (oscillateBounds l0 u0).1),
             ("osau", pad04 (oscillateBounds l0 u0).2)])
  else
    match getFieldValue st "oson" with
    | Except.error e => Except.error e
    | Except.ok cur =>
      Except.ok (setConfiguration t
        [("oson", if cur = some "OION" ∨ cur = some "OIOF" then "OIOF" else "OFF")])

/-- The oscillation bounds as the specification sentence describes them:
swap if descending, clamp lower to at least 5 and upper to at most 355, and
when the span is under 30 degrees collapse both bounds to the midpoint of the
clamped bounds (integer midpoint, rounded down). -/
def specMidpointBounds (lower upper : Int) : Int × Int :=
  let p := clampBounds (swapIfDesc lower upper)
  if (p.1 - p.2).natAbs < 30 then ((p.1 + p.2) / 2, (p.1 + p.2) / 2) else p

/-- The session state touched by inbound messages: the snapshots, the
first-data latches, and the registered listeners (identified abstractly). -/
structure Session where
  device : DeviceState
  stateDataAvailable : Bool
  envDataAvailable : Bool
  listeners : List Nat
deriving DecidableEq

/-- An inbound MQTT payload, modelled up to the shape `_on_message` inspects:
the raw bytes either fail `json.loads`, parse to an object without the
required `"msg"` key, or parse to an object with a string discriminator and
optional well-typed `"product-state"` and `"data"` bodies. -/
inductive Inbound where
  | invalidJson
  | missingMsg
  | message (msg : String) (productState : Option (List (String × FieldValue)))
      (data : Option (List (String × String)))

/-- `DysonPureCool._on_message` (src/dyson.py lines 118-132).  Returns the
updated session together with the listener-invocation trace: one entry
`(listener, snapshot)` per call of `func(self, self._state_data)`.  There is
no exception handling in the source, so `json.loads` failures and missing
keys surface as `Except.error`. -/
def onMessage (s : Session) (inb : Inbound) :
    Except PyError (Session × List (Nat × List (String × FieldValue))) :=
  match inb with
  | Inbound.invalidJson => Except.error (PyError.jsonDecodeError "Expecting value")
  | Inbound.missingMsg => Except.error (PyError.keyError "msg")
  | Inbound.message msg ps dat =>
    match
      (if msg = DYSON_CURRENT_STATE ∨ msg = DYSON_STATE_CHANGE then
        match ps with
        | none => Except.error (PyError.keyError "product-state")
        | some m =>
          if msg = DYSON_STATE_CHANGE then
            Except.ok ({ s with
                         stateDataAvailable := true
                         device := { s.device with stateData := some m } },
                       s.listeners.map (fun l => (l, m)))
          else
            Except.ok ({ s with
                         stateDataAvailable := true
                         device := { s.device with stateData := some m } },
                       ([] : List (Nat × List (String × FieldValue))))
      else Except.ok (s, [])) with
    | Except.error e => Except.error e
    | Except.ok (s1, calls) =>
      if msg = DYSON_ENVIRONMENTAL_CURRENT_SENSOR_DATA then
        match dat with
        | none => Except.error (PyError.keyError "data")
        | some d =>
          Except.ok ({ s1 with
                       envDataAvailable := true
                       device := { s1.device with environmentalData := some d } }, calls)
      else Except.ok (s1, calls)

/-- Connection errors raised by `_on_connect` classification. -/
inductive ConnError where
  | cannotConnect (reason : String)
  | invalidAuth (reason : String)
deriving DecidableEq

/-- Observable actions of `_on_connect`, in program order. -/
inductive ConnectEvent where
  | setConnected
  | clearDisconnected
  | setError (e : Option ConnError)
  | subscribe (topic : String)
deriving DecidableEq

/-- CONNACK result codes distinguished by `_on_connect`. -/
inductive ConnackRc where
  | accepted
  | refusedProtocolVersion
  | refusedIdentifierRejected
  | refusedServerUnavailable
  | refusedBadUsernamePassword
  | refusedNotAuthorized
  | other
deriving DecidableEq

/-- `DysonPureCool._on_connect` (src/dyson.py lines 87-107) as its ordered
trace of observable actions: it first sets the `connected` event and clears
`disconnected`, then classifies the result code (the accept branch subscribes
to the status topic and clears the stored error), and finally subscribes to
the status topic once more unconditionally. -/
def onConnect (statusTopic : String) (rc : ConnackRc) : List ConnectEvent :=
  [ConnectEvent.setConnected, ConnectEvent.clearDisconnected] ++
  (match rc with
   | ConnackRc.refusedProtocolVersion =>
     [ConnectEvent.setError (some (ConnError.cannotConnect
        "Connection refused - incorrect protocol version"))]
   | ConnackRc.refusedIdentifierRejected =>
     [ConnectEvent.setError (some (ConnError.cannotConnect
        "Connection refused - invalid client identifier"))]
   | ConnackRc.refusedServerUnavailable =>
     [ConnectEvent.setError (some (ConnError.cannotConnect
        "Connection refused - server unavailable"))]
   | ConnackRc.refusedBadUsernamePassword =>
     [ConnectEvent.setError (some (ConnError.invalidAuth
        "Connection refused - bad username or password"))]
   | ConnackRc.refusedNotAuthorized =>
     [ConnectEvent.setError (some (ConnError.cannotConnect
        "Connection refused - not authorised"))]
   | ConnackRc.accepted =>
     [ConnectEvent.subscribe statusTopic, ConnectEvent.setError none]
   | ConnackRc.other => []) ++
  [ConnectEvent.subscribe statusTopic]

/-- Whether a trace event is a subscription to any topic. -/
def isSubscribeEvent (e : ConnectEvent) : Bool :=
  match e with
  | ConnectEvent.subscribe _ => true
  | _ => false

/-- A concrete state snapshot used to instantiate the theorems: power on
(reported as a `[previous, current]` pair), speed 4, oscillation off between
90 and 180 degrees, auto and night mode on. -/
def sampleStateData : List (String × FieldValue) :=
  [("fpwr", FieldValue.pair "OFF" "ON"), ("fnsp", FieldValue.scalar "0004"),
   ("oson", FieldValue.scalar "OFF"), ("osal", FieldValue.scalar "0090"),
   ("osau", FieldValue.scalar "0180"), ("auto", FieldValue.scalar "ON"),
   ("nmod", FieldValue.scalar "ON")]

/-- A concrete environment snapshot: a `pm25` reading only. -/
def sampleEnv : List (String × String) := [("pm25", "10")]

/-- A device with both sample snapshots present. -/
def sampleDevice : DeviceState :=
  { stateData := some sampleStateData, environmentalData := some sampleEnv }

/-- A device whose `fnsp` field reports `"AUTO"`. -/
def autoDevice : DeviceState :=
  { stateData := some [("fnsp", FieldValue.scalar "AUTO")], environmentalData := some [] }

end DysonPureCool

namespace DysonPureCool

/-- C1: for every integer speed in 1..10, `set_speed` publishes exactly one
STATE-SET whose field mapping is `fpwr = "ON"` together with `fnsp` the
4-digit zero-padded decimal of the speed; for every integer outside 1..10 it
raises `ValueError` and publishes no outbound message. -/
theorem set_speed_contract (t : String) (n : Int) :
    (1 ≤ n ∧ n ≤ 10 →
      publishedBy (set_speed t n) =
        [setConfiguration t [("fpwr", "ON"), ("fnsp", pad04 n)]] ∧
      (pad04 n).length = 4) ∧
    (¬ (1 ≤ n ∧ n ≤ 10) →
      set_speed t n = Except.error (PyError.valueError "Invalid airflow speed") ∧
      publishedBy (set_speed t n) = []) := by
  constructor
  · rintro ⟨h1, h2⟩
    refine ⟨by simp [set_speed, publishedBy, h1, h2], ?_⟩
    interval_cases n <;> decide
  · intro h
    simp [set_speed, publishedBy, h]

/-- Witness for C1 at the valid speed 3 and the invalid speed 11. -/
theorem set_speed_contract_witness :
    publishedBy (set_speed "T" 3) =
      [setConfiguration "T" [("fpwr", "ON"), ("fnsp", pad04 3)]] ∧
    publishedBy (set_speed "T" 11) = [] :=
  ⟨((set_speed_contract "T" 3).1 (by decide)).1,
   ((set_speed_contract "T" 11).2 (by decide)).2⟩

/-- C2 counterexample: at `oscillate(true, 1, 3)` the swap does not fire and
clamping yields bounds (5, 3), whose midpoint is 4; but the code publishes
both bounds as 6 (`int(osal + abs(osal - osau) / 2)` with `osal = 5`), so the
claim's midpoint description is false at this input. -/
theorem oscillate_midpoint_counterexample :
    oscillate sampleDevice "T" true (some 1) (some 3) =
      Except.ok (setConfiguration "T"
        [("oson", "ON"), ("fpwr", "ON"), ("ancp", "CUST"),
         ("osal", "0006"), ("osau", "0006")]) ∧
    specMidpointBounds 1 3 = (4, 4) ∧
    oscillateBounds 1 3 = (6, 6) ∧ ((6 : Int), (6 : Int)) ≠ ((4 : Int), (4 : Int)) :=
  ⟨rfl, rfl, rfl, by decide⟩

/-- C2 (amended): enabling oscillation computes the published bounds by
swapping when given in descending order, clamping the lower bound to at least
5 and the upper to at most 355, and — when the resulting span is under 30
degrees — collapsing both bounds to the clamped lower bound plus half the
span (rounded down), which equals the floor of the midpoint whenever the
clamped bounds are still in order (in particular for all bounds within
5..355); missing bounds default to the currently stored bounds; in
particular (100, 110) collapses to 105 and (200, 50) swaps to (50, 200). -/
theorem oscillate_bounds_amended (st : DeviceState) (t : String) (lower upper : Int)
    (v : Option String) (h : getFieldValue st "oson" = Except.ok v) :
    oscillate st t true (some lower) (some upper) =
      Except.ok (setConfiguration t
        [("oson", if v = some "OION" ∨ v = some "OIOF" then "OION" else "ON"),
         ("fpwr", "ON"), ("ancp", "CUST"),
         ("osal", pad04 (oscillateBounds lower upper).1),
         ("osau", pad04 (oscillateBounds lower upper).2)]) ∧
    (∀ lo hi : Int, oscillate_lower st = Except.ok lo → oscillate_upper st = Except.ok hi →
      oscillate st t true none none = oscillate st t true (some lo) (some hi)) ∧
    (5 ≤ lower → lower ≤ upper → upper ≤ 355 →
      oscillateBounds lower upper =
        if upper - lower < 30 then ((lower + upper) / 2, (lower + upper) / 2)
        else (lower, upper)) ∧
    oscillateBounds 100 110 = (105, 105) ∧
    oscillateBounds 200 50 = (50, 200) := by
  refine ⟨?_, ?_, ?_, by decide, by decide⟩
  · simp [oscillate, h]
  · intro lo hi hlo hhi
    simp [oscillate, hlo, hhi]
  · intro h5 hlu h355
    have hsw : swapIfDesc lower upper = (lower, upper) := by
      unfold swapIfDesc
      rw [if_neg (by omega)]
    have hcl : clampBounds (lower, upper) = (lower, upper) := by
      simp only [clampBounds, Prod.mk.injEq]
      constructor <;> omega
    rw [oscillateBounds, hsw, hcl]
    unfold collapseNarrow
    dsimp only
    split_ifs <;>
      first
        | rfl
        | (exfalso; omega)
        | (simp only [Prod.mk.injEq]; omega)

/-- Witness for C2 (amended) on the sample device at bounds (100, 110). -/
theorem oscillate_bounds_amended_witness :
    oscillate sampleDevice "T" true (some 100) (some 110) =
      Except.ok (setConfiguration "T"
        [("oson", "ON"), ("fpwr", "ON"), ("ancp", "CUST"),
         ("osal", "0105"), ("osau", "0105")]) :=
  (oscillate_bounds_amended sampleDevice "T" 100 110 (some "OFF") rfl).1

/-- C3: field resolution checks the state snapshot first (second element of a
pair, otherwise the scalar), consults the environment snapshot only when the
field is absent from the state snapshot, and resolves to no value — not an
error — when the field is absent from both; state values take precedence for
any environment contents. -/
theorem field_resolution_precedence (sd : List (String × FieldValue))
    (ed : List (String × String)) (field : String) :
    (∀ a b, sd.lookup field = some (FieldValue.pair a b) →
      getFieldValue { stateData := some sd, environmentalData := some ed } field =
        Except.ok (some b)) ∧
    (∀ v, sd.lookup field = some (FieldValue.scalar v) →
      getFieldValue { stateData := some sd, environmentalData := some ed } field =
        Except.ok (some v)) ∧
    (∀ v, sd.lookup field = none → ed.lookup field = some v →
      getFieldValue { stateData := some sd, environmentalData := some ed } field =
        Except.ok (some v)) ∧
    (sd.lookup field = none → ed.lookup field = none →
      getFieldValue { stateData := some sd, environmentalData := some ed } field =
        Except.ok none) := by
  refine ⟨?_, ?_, ?_, ?_⟩
  · intro a b hsd
    simp [getFieldValue, hsd]
  · intro v hsd
    simp [getFieldValue, hsd]
  · intro v hsd hed
    simp [getFieldValue, hsd, hed]
  · intro hsd hed
    simp [getFieldValue, hsd, hed]

/-- Witness for C3: `fpwr` is a pair in the sample state snapshot and
resolves to its second element; `pm25` is absent from the state snapshot and
resolves from the environment snapshot. -/
theorem field_resolution_precedence_witness :
    getFieldValue sampleDevice "fpwr" = Except.ok (some "ON") ∧
    getFieldValue sampleDevice "pm25" = Except.ok (some "10") :=
  ⟨(field_resolution_precedence sampleStateData sampleEnv "fpwr").1 "OFF" "ON" rfl,
   (field_resolution_precedence sampleStateData sampleEnv "pm25").2.2.1 "10" rfl rfl⟩

/-- C4: a STATE-CHANGE message replaces the state snapshot and invokes every
registered listener exactly once each, in registration order, passing the
updated snapshot; a CURRENT-STATE message replaces the snapshot and invokes
no listener. -/
theorem state_change_notifies_listeners (s : Session)
    (m : List (String × FieldValue)) (dat : Option (List (String × String))) :
    onMessage s (Inbound.message DYSON_STATE_CHANGE (some m) dat) =
      Except.ok ({ s with
                   stateDataAvailable := true
                   device := { s.device with stateData := some m } },
                 s.listeners.map (fun l => (l, m))) ∧
    onMessage s (Inbound.message DYSON_CURRENT_STATE (some m) dat) =
      Except.ok ({ s with
                   stateDataAvailable := true
                   device := { s.device with stateData := some m } }, []) :=
  ⟨rfl, rfl⟩

/-- C5: the derived preset mode is the combined mode when `auto` and `nmod`
both resolve to ON, the auto mode when `auto` is ON and `nmod` OFF, the night
mode when `auto` is OFF and `nmod` ON, and no value when neither is ON. -/
theorem preset_mode_derivation (st : DeviceState) (a n : Option String)
    (ha : getFieldValue st "auto" = Except.ok a)
    (hn : getFieldValue st "nmod" = Except.ok n) :
    (a = some "ON" → n = some "ON" →
      preset_mode st = Except.ok (some DYSON_AUTO_NIGHT_MODE)) ∧
    (a = some "ON" → n = some "OFF" →
      preset_mode st = Except.ok (some DYSON_AUTO_MODE)) ∧
    (a = some "OFF" → n = some "ON" →
      preset_mode st = Except.ok (some DYSON_NIGHT_MODE)) ∧
    (a ≠ some "ON" → n ≠ some "ON" → preset_mode st = Except.ok none) := by
  refine ⟨?_, ?_, ?_, ?_⟩ <;> intro h1 h2 <;> simp [preset_mode, ha, hn, h1, h2]

/-- Witness for C5 on the sample device, where both `auto` and `nmod` are
ON. -/
theorem preset_mode_derivation_witness :
    preset_mode sampleDevice = Except.ok (some DYSON_AUTO_NIGHT_MODE) :=
  (preset_mode_derivation sampleDevice (some "ON") (some "ON") rfl rfl).1 rfl rfl

/-- C6 evaluation: `_on_message` contains no exception handling, so an
unparseable payload and a payload missing the required `msg` key raise out of
the handler (the snapshots stay untouched, but nothing converts the failure
into a logged drop — the error propagates into the transport's callback
machinery). -/
theorem malformed_payload_raises (s : Session) :
    onMessage s Inbound.invalidJson =
      Except.error (PyError.jsonDecodeError "Expecting value") ∧
    onMessage s Inbound.missingMsg = Except.error (PyError.keyError "msg") :=
  ⟨rfl, rfl⟩

/-- C7 counterexample: on the accept path the connected signal is the very
first action of the trace (index 0), while the first subscription to the
status topic only happens at index 2, so the subscription is not issued
before signaling connected. -/
theorem connect_signal_before_subscribe :
    List.findIdx? (fun e => e == ConnectEvent.setConnected)
      (onConnect "438/NN2-EU/status/current" ConnackRc.accepted) = some 0 ∧
    List.findIdx? isSubscribeEvent
      (onConnect "438/NN2-EU/status/current" ConnackRc.accepted) = some 2 ∧
    ¬ (2 : Nat) < 0 := by decide

/-- C7 (amended): `_on_connect` first signals connected (and clears
disconnected) and only then, on the accept path, issues the subscription to
the status topic — unconditionally on that path — followed by an
unconditional duplicate re-subscribe after the classification for every
result code; the subscription therefore follows, rather than precedes, the
connected signal. -/
theorem connect_accept_trace (topic : String) :
    onConnect topic ConnackRc.accepted =
      [ConnectEvent.setConnected, ConnectEvent.clearDisconnected,
       ConnectEvent.subscribe topic, ConnectEvent.setError none,
       ConnectEvent.subscribe topic] ∧
    (∀ rc, (onConnect topic rc).head? = some ConnectEvent.setConnected) ∧
    (∀ rc, ConnectEvent.subscribe topic ∈ onConnect topic rc) := by
  refine ⟨rfl, ?_, ?_⟩ <;> intro rc <;> cases rc <;> simp [onConnect]

/-- C8 counterexample: with `fnsp` resolved to `"AUTO"` the derived speed is
no value, and `turn_on` raises a `TypeError` from the `{:04d}` format
specifier instead of sending a STATE-SET: nothing is published. -/
theorem turn_on_auto_counterexample :
    speed autoDevice = Except.ok none ∧
    turn_on autoDevice "T" =
      Except.error
        (PyError.typeError "unsupported format string passed to NoneType.__format__") ∧
    publishedBy (turn_on autoDevice "T") = [] :=
  ⟨rfl, rfl, rfl⟩

/-- C8 (amended): whenever the derived speed resolves to an integer,
`turn_on` sends one STATE-SET setting power on and re-asserting that speed as
a 4-digit zero-padded string; when `fnsp` resolves to `"AUTO"` (derived speed
no value) `turn_on` raises a `TypeError` from the format specifier and
publishes no message. -/
theorem turn_on_amended (st : DeviceState) (t : String) :
    (∀ n : Int, speed st = Except.ok (some n) →
      publishedBy (turn_on st t) =
        [setConfiguration t [("fpwr", "ON"), ("fnsp", pad04 n)]]) ∧
    (speed st = Except.ok none → publishedBy (turn_on st t) = []) := by
  constructor
  · intro n h
    simp [turn_on, publishedBy, h]
  · intro h
    simp [turn_on, publishedBy, h]

/-- Witness for C8 (amended) on the sample device, whose speed is 4. -/
theorem turn_on_amended_witness :
    publishedBy (turn_on sampleDevice "T") =
      [setConfiguration "T" [("fpwr", "ON"), ("fnsp", pad04 4)]] :=
  (turn_on_amended sampleDevice "T").1 4 rfl

/-- C9: right after construction both snapshots are `None`, and every field
resolution and every derived accessor raises a `TypeError` (Python's
`field in None`) instead of resolving to no value. -/
theorem initial_state_accessors_raise (field : String) :
    getFieldValue initialDevice field = Except.error (PyError.typeError noneNotIterable) ∧
    is_on initialDevice = Except.error (PyError.typeError noneNotIterable) ∧
    speed initialDevice = Except.error (PyError.typeError noneNotIterable) ∧
    oscillating initialDevice = Except.error (PyError.typeError noneNotIterable) ∧
    oscillate_lower initialDevice = Except.error (PyError.typeError noneNotIterable) ∧
    oscillate_upper initialDevice = Except.error (PyError.typeError noneNotIterable) ∧
    preset_mode initialDevice = Except.error (PyError.typeError noneNotIterable) ∧
    temperature initialDevice = Except.error (PyError.typeError noneNotIterable) ∧
    pm25 initialDevice = Except.error (PyError.typeError noneNotIterable) ∧
    sleep_timer initialDevice = Except.error (PyError.typeError noneNotIterable) ∧
    continuous_monitoring initialDevice = Except.error (PyError.typeError noneNotIterable) :=
  ⟨rfl, rfl, rfl, rfl, rfl, rfl, rfl, rfl, rfl, rfl, rfl⟩

/-- C10: every successful enabling `oscillate` call publishes a field mapping
with exactly the keys `oson, fpwr, ancp, osal, osau` in that order and with
`ancp = "CUST"`; every successful disabling call publishes a mapping with
exactly the single key `oson`. -/
theorem oscillate_message_keys (st : DeviceState) (t : String) (osal osau : Option Int) :
    (∀ m, oscillate st t true osal osau = Except.ok m →
      m.data.map Prod.fst = ["oson", "fpwr", "ancp", "osal", "osau"] ∧
      m.data.lookup "ancp" = some "CUST") ∧
    (∀ m, oscillate st t false osal osau = Except.ok m →
      ∃ v, m.data = [("oson", v)]) := by
  constructor
  · intro m h
    unfold oscillate at h
    rw [if_pos rfl] at h
    repeat' split at h
    all_goals try exact Except.noConfusion h
    all_goals injection h with h
    all_goals subst h
    all_goals exact ⟨rfl, rfl⟩
  · intro m h
    unfold oscillate at h
    rw [if_neg (by decide)] at h
    repeat' split at h
    all_goals try exact Except.noConfusion h
    all_goals injection h with h
    all_goals subst h
    all_goals exact ⟨_, rfl⟩

/-- Witness for C10 on the sample device with bounds (90, 180) and a
disabling call. -/
theorem oscillate_message_keys_witness :
    (setConfiguration "T"
      [("oson", "ON"), ("fpwr", "ON"), ("ancp", "CUST"),
       ("osal", "0090"), ("osau", "0180")]).data.map Prod.fst =
        ["oson", "fpwr", "ancp", "osal", "osau"] ∧
    (∃ v, (setConfiguration "T" [("oson", "OFF")]).data = [("oson", v)]) :=
  ⟨((oscillate_message_keys sampleDevice "T" (some 90) (some 180)).1
      (setConfiguration "T"
        [("oson", "ON"), ("fpwr", "ON"), ("ancp", "CUST"),
         ("osal", "0090"), ("osau", "0180")]) rfl).1,
   (oscillate_message_keys sampleDevice "T" (some 90) (some 180)).2
      (setConfiguration "T" [("oson", "OFF")]) rfl⟩

end DysonPureCool
